import Mathlib

/-!
Verification of the Procura feed-ingestion and opportunity-reconciliation
pipeline and of the admin password-reset script.

The reconciliation pipeline (Connector / Normalizer / Reconciler / Audit
Recorder / Feed Scheduler) is not present in the repository's visible
source; its definitions below are modelled from the specification.  The
password-reset script is present in the source
(backend/scripts/reset_admin_password.py) and is embedded directly.
-/

/-! ## String canonicalisation helpers (kernel-evaluable) -/

/-- Remove all whitespace and lowercase: casing/whitespace-insensitive
canonical form of a text field. -/
def canon (s : String) : String :=
  String.mk ((s.data.filter (fun c => !c.isWhitespace)).map Char.toLower)

/-- Python `str.strip()`: drop leading and trailing whitespace. -/
def pyStrip (s : String) : String :=
  String.mk (((s.data.dropWhile Char.isWhitespace).reverse.dropWhile Char.isWhitespace).reverse)

/-- Python `str.lower()` restricted to the ASCII behaviour. -/
def pyLower (s : String) : String :=
  String.mk (s.data.map Char.toLower)

/-- Python `c in s` for a single character. -/
def pyContains (s : String) (c : Char) : Bool :=
  s.data.contains c

/-! ## Data model (modelled from the spec, §3) -/

/-- Modelled from the spec: `status` of an Opportunity. -/
inductive Status where
  | Open
  | Closed
  | Cancelled
  | Expired
deriving DecidableEq

/-- A status is terminal when it is not `Open`. -/
def Status.isTerminal : Status → Bool
  | .Open => false
  | _ => true

/-- Modelled from the spec: a raw listing as delivered by a connector. -/
structure RawListing where
  source_id : String
  title : String
  description : String
  status : Status
  published_at : Nat
  closes_at : Option Nat
deriving DecidableEq

/-- Modelled from the spec: the content hash over the semantically
meaningful fields (title, description, closes_at), whitespace/casing
insensitive; modelled as the canonicalised content itself. -/
def contentFingerprint (title description : String) (closes_at : Option Nat) :
    String × String × Option Nat :=
  (canon title, canon description, closes_at)

/-- Modelled from the spec: a normalized listing in canonical shape. -/
structure NormalizedListing where
  connector_id : String
  source_id : String
  title : String
  description : String
  status : Status
  published_at : Nat
  closes_at : Option Nat
  fingerprint : String × String × Option Nat
deriving DecidableEq

/-- Modelled from the spec: normalization errors. -/
inductive NormalizationError where
  | MissingRequiredField
  | UnsupportedSchema
deriving DecidableEq

/-- Modelled from the spec: `normalize(RawListing, connector_id)`, a pure
function computing the canonical record and its fingerprint; missing
required fields are reported as errors. -/
def normalizeListing (r : RawListing) (connector_id : String) :
    Except NormalizationError NormalizedListing :=
  if r.source_id = "" ∨ r.title = "" then
    Except.error NormalizationError.MissingRequiredField
  else
    Except.ok
      { connector_id := connector_id
        source_id := r.source_id
        title := r.title
        description := r.description
        status := r.status
        published_at := r.published_at
        closes_at := r.closes_at
        fingerprint := contentFingerprint r.title r.description r.closes_at }

/-- Modelled from the spec: the canonical Opportunity record. -/
structure Opportunity where
  connector_id : String
  source_id : String
  canonical_id : Nat
  title : String
  description : String
  status : Status
  published_at : Nat
  closes_at : Option Nat
  fingerprint : String × String × Option Nat
  version : Nat
  last_seen_at : Nat
deriving DecidableEq

/-- Modelled from the spec: the kind of an audit transition. -/
inductive ChangeKind where
  | Created
  | Updated
  | Closed
  | ReopenedRejected
deriving DecidableEq

/-- Modelled from the spec: one immutable audit record. -/
structure AuditEntry where
  entry_id : Nat
  canonical_id : Nat
  connector_id : String
  previous_version : Nat
  new_version : Nat
  change_kind : ChangeKind
  diff : List String
  recorded_at : Nat
deriving DecidableEq

/-- Modelled from the spec: the Reconciler's per-listing decision. -/
inductive Decision where
  | Create
  | NoOp
  | Update
  | Close
  | ReopenedRejected
deriving DecidableEq

/-- Modelled from the spec: store plus audit log plus id counters, the
state the Reconciler and the Audit Recorder act on. -/
structure PipelineState where
  store : List Opportunity
  audit : List AuditEntry
  nextId : Nat
  nextEntry : Nat
deriving DecidableEq

/-- Key equality for the `(connector_id, source_id)` lookup. -/
def keyMatch (cid sid : String) (o : Opportunity) : Bool :=
  o.connector_id == cid && o.source_id == sid

/-- Lookup of the Opportunity for a `(connector_id, source_id)` pair. -/
def findOpp (store : List Opportunity) (cid sid : String) : Option Opportunity :=
  store.find? (keyMatch cid sid)

/-- Replace the record(s) with `o`'s key by `o`. -/
def setOpp (store : List Opportunity) (o : Opportunity) : List Opportunity :=
  store.map (fun x => if keyMatch o.connector_id o.source_id x then o else x)

/-- Modelled from the spec: the Reconciler's decision for one listing
(§4.3 steps 1–4 and 6). -/
def decisionFor (store : List Opportunity) (nl : NormalizedListing) : Decision :=
  match findOpp store nl.connector_id nl.source_id with
  | none => Decision.Create
  | some o =>
    if o.status.isTerminal = true ∧ nl.status = Status.Open then
      Decision.ReopenedRejected
    else if o.fingerprint = nl.fingerprint ∧ o.status = nl.status then
      Decision.NoOp
    else
      Decision.Update

/-- Field-level diff recorded for an Updated entry. -/
def diffFields (o : Opportunity) (nl : NormalizedListing) : List String :=
  (if o.title = nl.title then [] else ["title"]) ++
  (if o.description = nl.description then [] else ["description"]) ++
  (if o.closes_at = nl.closes_at then [] else ["closes_at"]) ++
  (if o.status = nl.status then [] else ["status"])

/-- The NoOp touch: only `last_seen_at` moves. -/
def touchOpp (o : Opportunity) (now : Nat) : Opportunity :=
  { o with last_seen_at := now }

/-- The record after a rejected reopen: version bumps, status untouched. -/
def rejectOpp (o : Opportunity) (now : Nat) : Opportunity :=
  { o with version := o.version + 1, last_seen_at := now }

/-- The record after an Update: content fields follow the listing, the
version bumps by exactly one. -/
def updateOpp (o : Opportunity) (nl : NormalizedListing) (now : Nat) : Opportunity :=
  { o with
    title := nl.title
    description := nl.description
    status := nl.status
    closes_at := nl.closes_at
    fingerprint := nl.fingerprint
    version := o.version + 1
    last_seen_at := now }

/-- The freshly created record for a first sighting: version 1. -/
def createOpp (s : PipelineState) (nl : NormalizedListing) (now : Nat) : Opportunity :=
  { connector_id := nl.connector_id
    source_id := nl.source_id
    canonical_id := s.nextId
    title := nl.title
    description := nl.description
    status := nl.status
    published_at := nl.published_at
    closes_at := nl.closes_at
    fingerprint := nl.fingerprint
    version := 1
    last_seen_at := now }

/-- The Created audit entry for a first sighting. -/
def createdEntry (s : PipelineState) (nl : NormalizedListing) (now : Nat) : AuditEntry :=
  { entry_id := s.nextEntry
    canonical_id := s.nextId
    connector_id := nl.connector_id
    previous_version := 0
    new_version := 1
    change_kind := ChangeKind.Created
    diff := []
    recorded_at := now }

/-- The ReopenedRejected audit entry logged by terminal-state protection. -/
def reopenedEntry (eid : Nat) (o : Opportunity) (now : Nat) : AuditEntry :=
  { entry_id := eid
    canonical_id := o.canonical_id
    connector_id := o.connector_id
    previous_version := o.version
    new_version := o.version + 1
    change_kind := ChangeKind.ReopenedRejected
    diff := []
    recorded_at := now }

/-- The Updated audit entry with its field-level diff. -/
def updatedEntry (eid : Nat) (o : Opportunity) (nl : NormalizedListing) (now : Nat) :
    AuditEntry :=
  { entry_id := eid
    canonical_id := o.canonical_id
    connector_id := o.connector_id
    previous_version := o.version
    new_version := o.version + 1
    change_kind := ChangeKind.Updated
    diff := diffFields o nl
    recorded_at := now }

/-- Modelled from the spec: apply one normalized listing to the state,
writing the store and appending the matching audit entry transactionally
(§4.3).  `Create` assigns a fresh canonical id at version 1; `NoOp`
touches only `last_seen_at`; `Update` bumps the version by one; a
terminal record seen again as open is left terminal and the rejection is
logged as `ReopenedRejected`. -/
def applyListing (s : PipelineState) (nl : NormalizedListing) (now : Nat) :
    PipelineState :=
  match findOpp s.store nl.connector_id nl.source_id with
  | none =>
    { store := s.store ++ [createOpp s nl now]
      audit := s.audit ++ [createdEntry s nl now]
      nextId := s.nextId + 1
      nextEntry := s.nextEntry + 1 }
  | some o =>
    if o.status.isTerminal = true ∧ nl.status = Status.Open then
      { s with
        store := setOpp s.store (rejectOpp o now)
        audit := s.audit ++ [reopenedEntry s.nextEntry o now]
        nextEntry := s.nextEntry + 1 }
    else if o.fingerprint = nl.fingerprint ∧ o.status = nl.status then
      { s with store := setOpp s.store (touchOpp o now) }
    else
      { s with
        store := setOpp s.store (updateOpp o nl now)
        audit := s.audit ++ [updatedEntry s.nextEntry o nl now]
        nextEntry := s.nextEntry + 1 }

/-- The grace-period test of §4.3 step 5: an Open record of this
connector unseen for longer than `grace`. -/
def shouldExpire (o : Opportunity) (cid : String) (now grace : Nat) : Bool :=
  o.connector_id == cid && o.status == Status.Open &&
    decide (grace + o.last_seen_at < now)

/-- Expiry of a stale Open record: status becomes Expired, version bumps. -/
def expireOpp (o : Opportunity) : Opportunity :=
  { o with status := Status.Expired, version := o.version + 1 }

/-- The Closed audit entry written when a stale record is expired. -/
def closeEntry (baseEntry now i : Nat) (o : Opportunity) : AuditEntry :=
  { entry_id := baseEntry + i
    canonical_id := o.canonical_id
    connector_id := o.connector_id
    previous_version := o.version
    new_version := o.version + 1
    change_kind := ChangeKind.Closed
    diff := ["status"]
    recorded_at := now }

/-- Modelled from the spec: the end-of-batch sweep (§4.3 step 5) that
closes every Open record of the connector missing for longer than the
grace period, appending one Closed audit entry per expiry. -/
def closePass (s : PipelineState) (cid : String) (now grace : Nat) :
    PipelineState :=
  { store := s.store.map (fun o => if shouldExpire o cid now grace then expireOpp o else o)
    audit := s.audit ++
      ((s.store.filter (fun o => shouldExpire o cid now grace)).enum.map
        (fun p => closeEntry s.nextEntry now p.1 p.2))
    nextId := s.nextId
    nextEntry := s.nextEntry + (s.store.filter (fun o => shouldExpire o cid now grace)).length }

/-- Modelled from the spec: reconcile the listings of one batch in the
deterministic order received. -/
def runListings : PipelineState → List NormalizedListing → Nat → PipelineState
  | s, [], _ => s
  | s, nl :: rest, now => runListings (applyListing s nl now) rest now

/-- The sequence of decisions the Reconciler takes over one batch, each
against the store state at the moment it is taken. -/
def listingDecisions : PipelineState → List NormalizedListing → Nat → List Decision
  | _, [], _ => []
  | s, nl :: rest, now => decisionFor s.store nl :: listingDecisions (applyListing s nl now) rest now

/-- Modelled from the spec: one full successful batch body: reconcile all
listings, then run the grace-period sweep for the connector. -/
def runBatchCore (s : PipelineState) (b : List NormalizedListing) (cid : String)
    (now grace : Nat) : PipelineState :=
  closePass (runListings s b now) cid now grace

/-- The Close decisions made by the sweep at the end of a batch. -/
def sweepDecisions (s : PipelineState) (cid : String) (now grace : Nat) : List Decision :=
  (s.store.filter (fun o => shouldExpire o cid now grace)).map (fun _ => Decision.Close)

/-- All decisions of one batch: the per-listing decisions followed by the
sweep's Close decisions. -/
def batchDecisions (s : PipelineState) (b : List NormalizedListing) (cid : String)
    (now grace : Nat) : List Decision :=
  listingDecisions s b now ++ sweepDecisions (runListings s b now) cid now grace

/-- Decisions that produce an audit entry: every non-NoOp decision. -/
def isAudited : Decision → Bool
  | Decision.Create => true
  | Decision.Update => true
  | Decision.Close => true
  | Decision.ReopenedRejected => true
  | Decision.NoOp => false

/-- Decisions counted by the spec's sentence: Create, Update and Close
only. -/
def isCUC : Decision → Bool
  | Decision.Create => true
  | Decision.Update => true
  | Decision.Close => true
  | _ => false

/-- Audit-entry invariant: `new_version` is `previous_version + 1`, and a
Created entry has `new_version = 1`. -/
def entryOk (e : AuditEntry) : Prop :=
  e.new_version = e.previous_version + 1 ∧
    (e.change_kind = ChangeKind.Created → e.new_version = 1)

/-- A pipeline operation: one listing reconciliation or one sweep. -/
inductive Op where
  | listing : NormalizedListing → Nat → Op
  | sweep : String → Nat → Nat → Op

/-- Apply one pipeline operation to the state. -/
def applyOp (s : PipelineState) : Op → PipelineState
  | Op.listing nl now => applyListing s nl now
  | Op.sweep cid now grace => closePass s cid now grace

/-- Run a sequence of pipeline operations. -/
def runOps (ops : List Op) (s : PipelineState) : PipelineState :=
  ops.foldl applyOp s

/-- The initial pipeline state: empty store and audit log. -/
def initState : PipelineState :=
  { store := [], audit := [], nextId := 1, nextEntry := 1 }

/-! ## Feed Scheduler (modelled from the spec, §4.5, §5, §7) -/

/-- Modelled from the spec: the per-connector checkpoint cursor. -/
structure Checkpoint where
  connector_id : String
  cursor : Nat
  updated_at : Nat
deriving DecidableEq

/-- Per-connector scheduler state: the pipeline state and the checkpoint. -/
structure ConnState where
  pipeline : PipelineState
  checkpoint : Checkpoint
deriving DecidableEq

/-- A fetched batch: its listings and the connector's new cursor. -/
structure Batch where
  listings : List NormalizedListing
  newCursor : Nat
deriving DecidableEq

/-- The outcome of one batch run. -/
inductive RunResult where
  | committed : ConnState → RunResult
  | failed : ConnState → RunResult
deriving DecidableEq

/-- The scheduler state after a run, committed or not. -/
def RunResult.state : RunResult → ConnState
  | committed st => st
  | failed st => st

/-- Whether the run committed. -/
def RunResult.isCommitted : RunResult → Bool
  | committed _ => true
  | failed _ => false

/-- Modelled from the spec: reconcile the listings one by one, with a
fault injected before the listing at index `failAt` (when in range);
`none` is returned exactly when the injected fault interrupts the batch. -/
def processListings : PipelineState → List NormalizedListing → Nat → Option Nat →
    Option PipelineState
  | s, [], _, _ => some s
  | _, _ :: _, _, some 0 => none
  | s, nl :: rest, now, f => processListings (applyListing s nl now) rest now (f.map (· - 1))

/-- Modelled from the spec: one scheduler batch run (§4.5).  A mid-batch
failure discards the entire batch: the store, the audit log and the
checkpoint are all left at their pre-batch values.  On success the sweep
runs and the checkpoint advances to the batch's new cursor. -/
def runBatch (st : ConnState) (b : Batch) (now grace : Nat) (failAt : Option Nat) :
    RunResult :=
  match processListings st.pipeline b.listings now failAt with
  | none => RunResult.failed st
  | some p =>
    RunResult.committed
      { pipeline := closePass p st.checkpoint.connector_id now grace
        checkpoint :=
          { connector_id := st.checkpoint.connector_id
            cursor := b.newCursor
            updated_at := now } }

/-! ## The admin password-reset script (embedded from
backend/scripts/reset_admin_password.py) -/

/-- The environment variables the script reads; `none` models an unset
variable. -/
structure ScriptEnv where
  supabase_url : Option String
  service_role_key : Option String
  admin_email : Option String
  admin_uid : Option String
  admin_password : Option String
deriving DecidableEq

/-- The interactive inputs the script may prompt for. -/
structure ScriptInput where
  email_input : String
  uid_input : String
  password_input : String
  confirm_input : String
  confirmation_input : String
deriving DecidableEq

/-- How a run of the script ends: an exit before the update call (with
whether the supabase client had been created and the exit code), or the
password-update call being reached with the given uid and password. -/
inductive ScriptOutcome where
  | exited : Bool → Nat → ScriptOutcome
  | updateCalled : String → String → ScriptOutcome
deriving DecidableEq

/-- Python truthiness of `os.environ.get(...)`: false for an unset or
empty variable. -/
def truthy : Option String → Bool
  | none => false
  | some s => !(s == "")

/-- The admin email the script ends up with: the environment value when
truthy, else the stripped prompt answer. -/
def resolvedEmail (env : ScriptEnv) (inp : ScriptInput) : String :=
  if truthy env.admin_email then env.admin_email.getD "" else pyStrip inp.email_input

/-- The admin uid the script ends up with. -/
def resolvedUid (env : ScriptEnv) (inp : ScriptInput) : String :=
  if truthy env.admin_uid then env.admin_uid.getD "" else pyStrip inp.uid_input

/-- The accepted new password: the environment value when truthy (no
checks), else the prompted password after the match and length checks;
`none` when an interactive check fails. -/
def resolvedPassword (env : ScriptEnv) (inp : ScriptInput) : Option String :=
  if truthy env.admin_password then env.admin_password
  else if inp.password_input ≠ inp.confirm_input then none
  else if inp.password_input.length < 12 then none
  else some inp.password_input

/-- The control flow of reset_admin_password.py: the url/key guard, then
client creation, then email, uid and password resolution, then the email
and uid format checks, then the yes/no confirmation gating the
password-update call. -/
def runResetScript (env : ScriptEnv) (inp : ScriptInput) : ScriptOutcome :=
  if ¬ (truthy env.supabase_url = true ∧ truthy env.service_role_key = true) then
    ScriptOutcome.exited false 1
  else if resolvedEmail env inp = "" then ScriptOutcome.exited true 1
  else if resolvedUid env inp = "" then ScriptOutcome.exited true 1
  else
    match resolvedPassword env inp with
    | none => ScriptOutcome.exited true 1
    | some pw =>
      if ¬ (pyContains (resolvedEmail env inp) '@' = true) then ScriptOutcome.exited true 1
      else if (resolvedUid env inp).length < 32 then ScriptOutcome.exited true 1
      else if pyLower (pyStrip inp.confirmation_input) ≠ "yes" then ScriptOutcome.exited true 0
      else ScriptOutcome.updateCalled (resolvedUid env inp) pw

/-! ## Lookup and step lemmas -/

theorem find?_append_some {α : Type} (p : α → Bool) (l₁ l₂ : List α) (a : α)
    (h : l₁.find? p = some a) : (l₁ ++ l₂).find? p = some a := by
  induction l₁ with
  | nil => simp [List.find?] at h
  | cons b t ih =>
    rw [List.cons_append]
    cases hb : p b with
    | true =>
      rw [List.find?_cons_of_pos _ hb] at h
      rw [List.find?_cons_of_pos _ hb]
      exact h
    | false =>
      rw [List.find?_cons_of_neg _ (by simp [hb])] at h
      rw [List.find?_cons_of_neg _ (by simp [hb])]
      exact ih h

theorem find?_map_pred {α : Type} (f : α → α) (p : α → Bool)
    (hp : ∀ x, p (f x) = p x) (l : List α) :
    (l.map f).find? p = (l.find? p).map f := by
  induction l with
  | nil => rfl
  | cons b t ih =>
    rw [List.map_cons]
    cases hb : p b with
    | true =>
      rw [List.find?_cons_of_pos _ (by rw [hp]; exact hb), List.find?_cons_of_pos _ hb]
      rfl
    | false =>
      rw [List.find?_cons_of_neg _ (by simp [hp, hb]), List.find?_cons_of_neg _ (by simp [hb])]
      exact ih

theorem keyMatch_true_iff (cid sid : String) (o : Opportunity) :
    keyMatch cid sid o = true ↔ o.connector_id = cid ∧ o.source_id = sid := by
  simp [keyMatch]

theorem findOpp_setOpp (store : List Opportunity) (o' : Opportunity) (cid sid : String) :
    findOpp (setOpp store o') cid sid =
      (findOpp store cid sid).map
        (fun x => if keyMatch o'.connector_id o'.source_id x then o' else x) := by
  unfold findOpp setOpp
  apply find?_map_pred
  intro x
  by_cases hk : keyMatch o'.connector_id o'.source_id x = true
  · obtain ⟨hc, hs⟩ := (keyMatch_true_iff _ _ _).mp hk
    simp [hk, keyMatch, hc, hs]
  · simp [hk]

theorem findOpp_some_key (store : List Opportunity) (cid sid : String) (o : Opportunity)
    (h : findOpp store cid sid = some o) : o.connector_id = cid ∧ o.source_id = sid := by
  unfold findOpp at h
  have hp := List.find?_some h
  exact (keyMatch_true_iff _ _ _).mp hp

theorem findOpp_unique (store : List Opportunity) (cid sid cid' sid' : String)
    (o o' : Opportunity) (h : findOpp store cid sid = some o)
    (h' : findOpp store cid' sid' = some o')
    (hk : keyMatch cid' sid' o = true) : o = o' := by
  obtain ⟨hc, hs⟩ := findOpp_some_key store cid sid o h
  obtain ⟨hc', hs'⟩ := (keyMatch_true_iff _ _ _).mp hk
  have hcc : cid = cid' := hc.symm.trans hc'
  have hss : sid = sid' := hs.symm.trans hs'
  subst hcc; subst hss
  rw [h] at h'
  exact Option.some.inj h'

theorem findOpp_after_replace (store : List Opportunity) (o₀ o₁ : Opportunity)
    (cid sid : String) (o : Opportunity) (h : findOpp store cid sid = some o)
    (hc : o₁.connector_id = o₀.connector_id) (hs : o₁.source_id = o₀.source_id) :
    findOpp (setOpp store o₁) cid sid =
      some (if keyMatch o₀.connector_id o₀.source_id o then o₁ else o) := by
  rw [findOpp_setOpp, h, Option.map_some']
  congr 1
  rw [show keyMatch o₁.connector_id o₁.source_id o = keyMatch o₀.connector_id o₀.source_id o by
    simp [keyMatch, hc, hs]]

theorem status_isTerminal_of_ne_open (st : Status) (h : st ≠ Status.Open) :
    st.isTerminal = true := by
  cases st with
  | Open => exact absurd rfl h
  | Closed => rfl
  | Cancelled => rfl
  | Expired => rfl

theorem applyListing_find (s : PipelineState) (nl : NormalizedListing) (now : Nat)
    (cid sid : String) (o : Opportunity) (h : findOpp s.store cid sid = some o) :
    ∃ o', findOpp (applyListing s nl now).store cid sid = some o' ∧
      (o' = o ∨ o' = touchOpp o now ∨
        (o'.version = o.version + 1 ∧ (o.status ≠ Status.Open → o'.status ≠ Status.Open))) := by
  unfold applyListing
  cases hF : findOpp s.store nl.connector_id nl.source_id with
  | none =>
    refine ⟨o, ?_, Or.inl rfl⟩
    exact find?_append_some (keyMatch cid sid) s.store _ o h
  | some o₀ =>
    dsimp only
    by_cases h1 : o₀.status.isTerminal = true ∧ nl.status = Status.Open
    · rw [if_pos h1]
      by_cases hk : keyMatch o₀.connector_id o₀.source_id o = true
      · have heq : o = o₀ := by
          obtain ⟨hc₀, hs₀⟩ := findOpp_some_key s.store nl.connector_id nl.source_id o₀ hF
          exact findOpp_unique s.store cid sid nl.connector_id nl.source_id o o₀ h hF
            (by rw [hc₀, hs₀] at hk; exact hk)
        subst heq
        refine ⟨rejectOpp o now, ?_, Or.inr (Or.inr ⟨rfl, fun hno => hno⟩)⟩
        have hr := findOpp_after_replace s.store o (rejectOpp o now) cid sid o h rfl rfl
        rw [if_pos hk] at hr
        exact hr
      · refine ⟨o, ?_, Or.inl rfl⟩
        have hr := findOpp_after_replace s.store o₀ (rejectOpp o₀ now) cid sid o h rfl rfl
        rw [if_neg hk] at hr
        exact hr
    · by_cases h2 : o₀.fingerprint = nl.fingerprint ∧ o₀.status = nl.status
      · rw [if_neg h1, if_pos h2]
        by_cases hk : keyMatch o₀.connector_id o₀.source_id o = true
        · have heq : o = o₀ := by
            obtain ⟨hc₀, hs₀⟩ := findOpp_some_key s.store nl.connector_id nl.source_id o₀ hF
            exact findOpp_unique s.store cid sid nl.connector_id nl.source_id o o₀ h hF
              (by rw [hc₀, hs₀] at hk; exact hk)
          subst heq
          refine ⟨touchOpp o now, ?_, Or.inr (Or.inl rfl)⟩
          have hr := findOpp_after_replace s.store o (touchOpp o now) cid sid o h rfl rfl
          rw [if_pos hk] at hr
          exact hr
        · refine ⟨o, ?_, Or.inl rfl⟩
          have hr := findOpp_after_replace s.store o₀ (touchOpp o₀ now) cid sid o h rfl rfl
          rw [if_neg hk] at hr
          exact hr
      · rw [if_neg h1, if_neg h2]
        by_cases hk : keyMatch o₀.connector_id o₀.source_id o = true
        · have heq : o = o₀ := by
            obtain ⟨hc₀, hs₀⟩ := findOpp_some_key s.store nl.connector_id nl.source_id o₀ hF
            exact findOpp_unique s.store cid sid nl.connector_id nl.source_id o o₀ h hF
              (by rw [hc₀, hs₀] at hk; exact hk)
          subst heq
          refine ⟨updateOpp o nl now, ?_, Or.inr (Or.inr ⟨rfl, ?_⟩)⟩
          · have hr := findOpp_after_replace s.store o (updateOpp o nl now) cid sid o h rfl rfl
            rw [if_pos hk] at hr
            exact hr
          · intro hno hop
            exact h1 ⟨status_isTerminal_of_ne_open _ hno, hop⟩
        · refine ⟨o, ?_, Or.inl rfl⟩
          have hr := findOpp_after_replace s.store o₀ (updateOpp o₀ nl now) cid sid o h rfl rfl
          rw [if_neg hk] at hr
          exact hr

theorem findOpp_closePass (s : PipelineState) (cid₀ : String) (now grace : Nat)
    (cid sid : String) (o : Opportunity) (h : findOpp s.store cid sid = some o) :
    findOpp (closePass s cid₀ now grace).store cid sid =
      some (if shouldExpire o cid₀ now grace then expireOpp o else o) := by
  have hp : ∀ x : Opportunity, keyMatch cid sid
      (if shouldExpire x cid₀ now grace then expireOpp x else x) = keyMatch cid sid x := by
    intro x
    by_cases hx : shouldExpire x cid₀ now grace = true
    · rw [if_pos hx]; rfl
    · rw [if_neg hx]
  show ((s.store.map _).find? (keyMatch cid sid)) = _
  rw [find?_map_pred _ _ hp s.store]
  rw [show s.store.find? (keyMatch cid sid) = some o from h]
  rfl

theorem closePass_entries (s : PipelineState) (cid₀ : String) (now grace : Nat)
    (h : ∀ e ∈ s.audit, entryOk e) :
    ∀ e ∈ (closePass s cid₀ now grace).audit, entryOk e := by
  intro e he
  rw [show (closePass s cid₀ now grace).audit = s.audit ++
      ((s.store.filter (fun o => shouldExpire o cid₀ now grace)).enum.map
        (fun p => closeEntry s.nextEntry now p.1 p.2)) from rfl] at he
  rcases List.mem_append.mp he with hin | hin
  · exact h e hin
  · obtain ⟨p, _, rfl⟩ := List.mem_map.mp hin
    exact ⟨rfl, fun hck => absurd hck (by simp [closeEntry])⟩

theorem applyListing_entries (s : PipelineState) (nl : NormalizedListing) (now : Nat)
    (h : ∀ e ∈ s.audit, entryOk e) :
    ∀ e ∈ (applyListing s nl now).audit, entryOk e := by
  intro e he
  unfold applyListing at he
  cases hF : findOpp s.store nl.connector_id nl.source_id with
  | none =>
    rw [hF] at he
    dsimp only at he
    rcases List.mem_append.mp he with hin | hin
    · exact h e hin
    · rw [List.mem_singleton.mp hin]
      exact ⟨rfl, fun _ => rfl⟩
  | some o =>
    rw [hF] at he
    dsimp only at he
    by_cases h1 : o.status.isTerminal = true ∧ nl.status = Status.Open
    · rw [if_pos h1] at he
      rcases List.mem_append.mp he with hin | hin
      · exact h e hin
      · rw [List.mem_singleton.mp hin]
        exact ⟨rfl, fun hck => absurd hck (by simp [reopenedEntry])⟩
    · by_cases h2 : o.fingerprint = nl.fingerprint ∧ o.status = nl.status
      · rw [if_neg h1, if_pos h2] at he
        exact h e he
      · rw [if_neg h1, if_neg h2] at he
        rcases List.mem_append.mp he with hin | hin
        · exact h e hin
        · rw [List.mem_singleton.mp hin]
          exact ⟨rfl, fun hck => absurd hck (by simp [updatedEntry])⟩

theorem applyOp_entries (s : PipelineState) (op : Op) (h : ∀ e ∈ s.audit, entryOk e) :
    ∀ e ∈ (applyOp s op).audit, entryOk e := by
  cases op with
  | listing nl now => exact applyListing_entries s nl now h
  | sweep cid now grace => exact closePass_entries s cid now grace h

theorem runOps_entries (ops : List Op) (s : PipelineState) (h : ∀ e ∈ s.audit, entryOk e) :
    ∀ e ∈ (runOps ops s).audit, entryOk e := by
  induction ops generalizing s with
  | nil => exact h
  | cons op rest ih => exact ih (applyOp s op) (applyOp_entries s op h)

theorem applyOp_find (s : PipelineState) (op : Op) (cid sid : String) (o : Opportunity)
    (h : findOpp s.store cid sid = some o) (ht : o.status ≠ Status.Open) :
    ∃ o', findOpp (applyOp s op).store cid sid = some o' ∧ o'.status ≠ Status.Open := by
  cases op with
  | listing nl now =>
    obtain ⟨o', hf, hcase⟩ := applyListing_find s nl now cid sid o h
    refine ⟨o', hf, ?_⟩
    rcases hcase with rfl | rfl | ⟨_, hst⟩
    · exact ht
    · exact ht
    · exact hst ht
  | sweep cid₀ now grace =>
    show ∃ o', findOpp (closePass s cid₀ now grace).store cid sid = some o' ∧
      o'.status ≠ Status.Open
    rw [findOpp_closePass s cid₀ now grace cid sid o h]
    by_cases hx : shouldExpire o cid₀ now grace = true
    · rw [if_pos hx]
      refine ⟨expireOpp o, rfl, ?_⟩
      intro hh
      exact Status.noConfusion hh
    · rw [if_neg hx]
      exact ⟨o, rfl, ht⟩

theorem applyListing_audit_length (s : PipelineState) (nl : NormalizedListing) (now : Nat) :
    (applyListing s nl now).audit.length =
      s.audit.length + (if decisionFor s.store nl = Decision.NoOp then 0 else 1) := by
  unfold applyListing decisionFor
  cases hF : findOpp s.store nl.connector_id nl.source_id with
  | none => simp
  | some o =>
    dsimp only
    split_ifs with h1 h2 <;> simp_all

theorem applyListing_noop_audit (s : PipelineState) (nl : NormalizedListing) (now : Nat)
    (h : decisionFor s.store nl = Decision.NoOp) :
    (applyListing s nl now).audit = s.audit := by
  unfold applyListing
  unfold decisionFor at h
  cases hF : findOpp s.store nl.connector_id nl.source_id with
  | none =>
    rw [hF] at h
    exact Decision.noConfusion h
  | some o =>
    rw [hF] at h
    dsimp only at h ⊢
    split_ifs at h ⊢ with h1 h2
    rfl

theorem isAudited_iff_not_noop (d : Decision) :
    (if isAudited d = true then 1 else 0) = (if d = Decision.NoOp then 0 else 1) := by
  cases d <;> simp [isAudited]

theorem runListings_audit_length (b : List NormalizedListing) (s : PipelineState) (now : Nat) :
    (runListings s b now).audit.length =
      s.audit.length + (listingDecisions s b now).countP isAudited := by
  induction b generalizing s with
  | nil => simp [runListings, listingDecisions]
  | cons nl rest ih =>
    rw [show runListings s (nl :: rest) now =
        runListings (applyListing s nl now) rest now from rfl]
    rw [ih (applyListing s nl now)]
    rw [applyListing_audit_length]
    rw [show listingDecisions s (nl :: rest) now = decisionFor s.store nl ::
        listingDecisions (applyListing s nl now) rest now from rfl]
    rw [List.countP_cons]
    rw [isAudited_iff_not_noop (decisionFor s.store nl)]
    generalize (if decisionFor s.store nl = Decision.NoOp then 0 else 1) = k
    omega

theorem closePass_audit_length (s : PipelineState) (cid : String) (now grace : Nat) :
    (closePass s cid now grace).audit.length =
      s.audit.length + (sweepDecisions s cid now grace).countP isAudited := by
  show (s.audit ++ _).length = _
  rw [List.length_append]
  congr 1
  rw [List.length_map, List.enum_length]
  unfold sweepDecisions
  rw [List.countP_map]
  rw [show (isAudited ∘ fun _ : Opportunity => Decision.Close) = (fun _ => true)
    from funext (fun _ => rfl)]
  rw [List.countP_true]

theorem runBatchCore_audit_length (s : PipelineState) (b : List NormalizedListing)
    (cid : String) (now grace : Nat) :
    (runBatchCore s b cid now grace).audit.length =
      s.audit.length + (batchDecisions s b cid now grace).countP isAudited := by
  unfold runBatchCore batchDecisions
  rw [closePass_audit_length, runListings_audit_length, List.countP_append]
  omega

theorem processListings_fail (b : List NormalizedListing) (s : PipelineState) (now k : Nat)
    (hk : k < b.length) : processListings s b now (some k) = none := by
  induction b generalizing s k with
  | nil => exact absurd hk (by simp)
  | cons nl rest ih =>
    cases k with
    | zero => rfl
    | succ k' =>
      rw [show processListings s (nl :: rest) now (some (k' + 1)) =
          processListings (applyListing s nl now) rest now (some k') from rfl]
      exact ih (applyListing s nl now) k' (Nat.lt_of_succ_lt_succ (by simpa using hk))

theorem processListings_ok (b : List NormalizedListing) (s : PipelineState) (now : Nat) :
    processListings s b now none = some (runListings s b now) := by
  induction b generalizing s with
  | nil => rfl
  | cons nl rest ih => exact ih (applyListing s nl now)

/-! ## Concrete fixtures used by witnesses -/

/-- A sample raw listing (spec scenario: source_id "RFP-100"). -/
def exRaw : RawListing :=
  { source_id := "RFP-100", title := "Road Works", description := "Repave Main St",
    status := Status.Open, published_at := 1, closes_at := some 30 }

/-- The sample listing in normalized form, reported open. -/
def exListingOpen : NormalizedListing :=
  { connector_id := "conn-a", source_id := "RFP-100", title := "Road Works",
    description := "Repave Main St", status := Status.Open, published_at := 1,
    closes_at := some 30,
    fingerprint := contentFingerprint "Road Works" "Repave Main St" (some 30) }

/-- A stored record for the sample listing, already Expired at version 2. -/
def exOppExpired : Opportunity :=
  { connector_id := "conn-a", source_id := "RFP-100", canonical_id := 1,
    title := "Road Works", description := "Repave Main St", status := Status.Expired,
    published_at := 1, closes_at := some 30,
    fingerprint := contentFingerprint "Road Works" "Repave Main St" (some 30),
    version := 2, last_seen_at := 3 }

/-- A stored record for the sample listing, still Open at version 1. -/
def exOppOpen : Opportunity :=
  { exOppExpired with status := Status.Open, version := 1 }

/-- A pipeline state holding the Expired record. -/
def exStateExpired : PipelineState :=
  { store := [exOppExpired], audit := [], nextId := 2, nextEntry := 3 }

/-- A pipeline state holding the Open record. -/
def exStateOpen : PipelineState :=
  { store := [exOppOpen], audit := [], nextId := 2, nextEntry := 2 }

/-- A scheduler state over the Open record with cursor 7. -/
def exConn : ConnState :=
  { pipeline := exStateOpen,
    checkpoint := { connector_id := "conn-a", cursor := 7, updated_at := 0 } }

/-- A one-listing batch moving the cursor to 8. -/
def exBatch : Batch :=
  { listings := [exListingOpen], newCursor := 8 }

/-! ## Claim theorems -/

/-- C5: normalizing the same RawListing twice under the same connector id
yields the same NormalizedListing with an identical fingerprint:
`normalizeListing` is a deterministic pure function of its inputs. -/
theorem c5_normalize_deterministic (r₁ r₂ : RawListing) (cid : String) (h : r₁ = r₂) :
    normalizeListing r₁ cid = normalizeListing r₂ cid ∧
    ∀ n₁ n₂, normalizeListing r₁ cid = Except.ok n₁ →
      normalizeListing r₂ cid = Except.ok n₂ → n₁.fingerprint = n₂.fingerprint := by
  subst h
  refine ⟨rfl, ?_⟩
  intro n₁ n₂ h₁ h₂
  rw [h₁] at h₂
  rw [Except.ok.injEq] at h₂
  rw [h₂]

/-- Witness for C5 at the sample raw listing. -/
theorem c5_witness :
    normalizeListing exRaw "conn-a" = normalizeListing exRaw "conn-a" ∧
    ∀ n₁ n₂, normalizeListing exRaw "conn-a" = Except.ok n₁ →
      normalizeListing exRaw "conn-a" = Except.ok n₂ → n₁.fingerprint = n₂.fingerprint :=
  c5_normalize_deterministic exRaw exRaw "conn-a" rfl

/-- C1: a batch commits and advances the checkpoint exactly when every
listing was reconciled and audited; a mid-batch failure returns the
untouched pre-batch state (checkpoint included), and re-running the batch
after such a failure produces the same final state as an undisturbed run. -/
theorem c1_checkpoint_batch_atomicity (st : ConnState) (b : Batch) (now grace k : Nat) :
    (runBatch st b now grace none = RunResult.committed
      { pipeline := runBatchCore st.pipeline b.listings st.checkpoint.connector_id now grace
        checkpoint :=
          { connector_id := st.checkpoint.connector_id, cursor := b.newCursor,
            updated_at := now } }) ∧
    (k < b.listings.length → runBatch st b now grace (some k) = RunResult.failed st) ∧
    (∀ f, (runBatch st b now grace f).isCommitted = false →
      (runBatch st b now grace f).state = st) ∧
    (∀ f, (runBatch st b now grace f).isCommitted = true →
      (runBatch st b now grace f).state.checkpoint =
        { connector_id := st.checkpoint.connector_id, cursor := b.newCursor,
          updated_at := now }) ∧
    (k < b.listings.length →
      runBatch ((runBatch st b now grace (some k)).state) b now grace none =
        runBatch st b now grace none) := by
  have hfail : ∀ m, m < b.listings.length →
      runBatch st b now grace (some m) = RunResult.failed st := by
    intro m hm
    unfold runBatch
    rw [processListings_fail b.listings st.pipeline now m hm]
  refine ⟨?_, hfail k, ?_, ?_, ?_⟩
  · unfold runBatch
    rw [processListings_ok b.listings st.pipeline now]
    rfl
  · intro f hC
    unfold runBatch at hC ⊢
    cases hp : processListings st.pipeline b.listings now f with
    | none => rfl
    | some p => rw [hp] at hC; exact Bool.noConfusion hC
  · intro f hC
    unfold runBatch at hC ⊢
    cases hp : processListings st.pipeline b.listings now f with
    | none => rw [hp] at hC; exact Bool.noConfusion hC
    | some p => rfl
  · intro hk
    rw [hfail k hk]
    rfl

/-- Witness for C1: a fault before the only listing of the sample batch
fails the run with the state untouched, and the retry equals a clean run. -/
theorem c1_witness :
    runBatch exConn exBatch 5 100 (some 0) = RunResult.failed exConn ∧
    runBatch ((runBatch exConn exBatch 5 100 (some 0)).state) exBatch 5 100 none =
      runBatch exConn exBatch 5 100 none :=
  ⟨(c1_checkpoint_batch_atomicity exConn exBatch 5 100 0).2.1 (by decide),
   (c1_checkpoint_batch_atomicity exConn exBatch 5 100 0).2.2.2.2 (by decide)⟩

/-- C2: across any sequence of pipeline operations, a record that has
left Open (is in a terminal status) is never set back to Open: the status
field only moves forward. -/
theorem c2_status_monotone (ops : List Op) (s : PipelineState) (cid sid : String)
    (o : Opportunity) (h : findOpp s.store cid sid = some o)
    (ht : o.status ≠ Status.Open) :
    ∃ o', findOpp (runOps ops s).store cid sid = some o' ∧ o'.status ≠ Status.Open := by
  induction ops generalizing s o with
  | nil => exact ⟨o, h, ht⟩
  | cons op rest ih =>
    obtain ⟨o', h', ht'⟩ := applyOp_find s op cid sid o h ht
    exact ih (applyOp s op) o' h' ht'

/-- Witness for C2: the Expired sample record stays non-Open across a
reopen attempt followed by a sweep. -/
theorem c2_witness :
    ∃ o', findOpp (runOps [Op.listing exListingOpen 6, Op.sweep "conn-a" 50 10]
        exStateExpired).store "conn-a" "RFP-100" = some o' ∧
      o'.status ≠ Status.Open :=
  c2_status_monotone [Op.listing exListingOpen 6, Op.sweep "conn-a" 50 10]
    exStateExpired "conn-a" "RFP-100" exOppExpired (by decide) (by decide)

/-- C3: in any reachable audit log every entry has
`new_version = previous_version + 1` (1 for Created), and a
reconciliation or sweep step either leaves a record unchanged, touches
only `last_seen_at`, or increments its version by exactly 1. -/
theorem c3_version_discipline :
    (∀ ops, ∀ e ∈ (runOps ops initState).audit, entryOk e) ∧
    (∀ s nl now cid sid o o', findOpp s.store cid sid = some o →
      findOpp (applyListing s nl now).store cid sid = some o' →
      o' = o ∨ o' = touchOpp o o'.last_seen_at ∨ o'.version = o.version + 1) ∧
    (∀ s cid₀ now grace cid sid o o', findOpp s.store cid sid = some o →
      findOpp (closePass s cid₀ now grace).store cid sid = some o' →
      o' = o ∨ o'.version = o.version + 1) := by
  refine ⟨?_, ?_, ?_⟩
  · intro ops e he
    exact runOps_entries ops initState
      (fun e' he' => absurd he' (List.not_mem_nil e')) e he
  · intro s nl now cid sid o o' h h'
    obtain ⟨o'', h'', hcase⟩ := applyListing_find s nl now cid sid o h
    rw [h''] at h'
    obtain rfl : o'' = o' := Option.some.inj h'
    rcases hcase with rfl | rfl | ⟨hv, _⟩
    · exact Or.inl rfl
    · exact Or.inr (Or.inl rfl)
    · exact Or.inr (Or.inr hv)
  · intro s cid₀ now grace cid sid o o' h h'
    rw [findOpp_closePass s cid₀ now grace cid sid o h] at h'
    obtain rfl : _ = o' := Option.some.inj h'
    by_cases hx : shouldExpire o cid₀ now grace = true
    · rw [if_pos hx]
      exact Or.inr rfl
    · rw [if_neg hx]
      exact Or.inl rfl

/-- Witness for C3 on the sample state: the Created entry of a first
sighting is well-formed, and a rejected reopen bumps the version by one. -/
theorem c3_witness :
    entryOk (createdEntry initState exListingOpen 6) ∧
    (rejectOpp exOppExpired 6 = exOppExpired ∨
      rejectOpp exOppExpired 6 = touchOpp exOppExpired (rejectOpp exOppExpired 6).last_seen_at ∨
      (rejectOpp exOppExpired 6).version = exOppExpired.version + 1) ∧
    (expireOpp exOppOpen = exOppOpen ∨ (expireOpp exOppOpen).version = exOppOpen.version + 1) :=
  ⟨c3_version_discipline.1 [Op.listing exListingOpen 6]
      (createdEntry initState exListingOpen 6) (by decide),
   c3_version_discipline.2.1 exStateExpired exListingOpen 6 "conn-a" "RFP-100"
      exOppExpired (rejectOpp exOppExpired 6) (by decide) (by decide),
   c3_version_discipline.2.2 exStateOpen "conn-a" 50 10 "conn-a" "RFP-100"
      exOppOpen (expireOpp exOppOpen) (by decide) (by decide)⟩

/-- C4 fails as stated: a Reopened-rejected decision also appends an
audit entry, so a batch containing one has more entries than its
Create/Update/Close decisions. -/
theorem c4_counterexample :
    ¬ ((runBatchCore exStateExpired [exListingOpen] "conn-a" 10 100).audit.length =
      exStateExpired.audit.length +
        (batchDecisions exStateExpired [exListingOpen] "conn-a" 10 100).countP isCUC) := by
  decide

/-- C4 (amended): for every successfully committed batch the number of
appended audit entries equals the number of non-NoOp decisions (Create,
Update, Close and Reopened-rejected), and a NoOp decision appends zero
audit entries. -/
theorem c4_audit_count (s : PipelineState) (b : List NormalizedListing)
    (cid : String) (now grace : Nat) :
    (runBatchCore s b cid now grace).audit.length =
      s.audit.length + (batchDecisions s b cid now grace).countP isAudited ∧
    (∀ nl now', decisionFor s.store nl = Decision.NoOp →
      (applyListing s nl now').audit = s.audit) :=
  ⟨runBatchCore_audit_length s b cid now grace,
   fun nl now' h => applyListing_noop_audit s nl now' h⟩

/-- Witness for C4 on the sample open record: one NoOp batch appends no
entries. -/
theorem c4_witness :
    (runBatchCore exStateOpen [exListingOpen] "conn-a" 10 100).audit.length =
      exStateOpen.audit.length +
        (batchDecisions exStateOpen [exListingOpen] "conn-a" 10 100).countP isAudited ∧
    (applyListing exStateOpen exListingOpen 10).audit = exStateOpen.audit :=
  ⟨(c4_audit_count exStateOpen [exListingOpen] "conn-a" 10 100).1,
   (c4_audit_count exStateOpen [exListingOpen] "conn-a" 10 100).2 exListingOpen 10 (by decide)⟩

/-- C6: a terminal record reported open again is never reopened: the
decision is ReopenedRejected, the stored status is unchanged, and exactly
one ReopenedRejected audit entry is appended. -/
theorem c6_terminal_protected (s : PipelineState) (nl : NormalizedListing) (now : Nat)
    (o : Opportunity) (h : findOpp s.store nl.connector_id nl.source_id = some o)
    (ht : o.status.isTerminal = true) (hn : nl.status = Status.Open) :
    decisionFor s.store nl = Decision.ReopenedRejected ∧
    (∃ o', findOpp (applyListing s nl now).store nl.connector_id nl.source_id = some o' ∧
      o'.status = o.status) ∧
    (applyListing s nl now).audit = s.audit ++ [reopenedEntry s.nextEntry o now] := by
  have h1 : o.status.isTerminal = true ∧ nl.status = Status.Open := ⟨ht, hn⟩
  refine ⟨?_, ?_, ?_⟩
  · unfold decisionFor
    rw [h]
    dsimp only
    rw [if_pos h1]
  · have hk : keyMatch o.connector_id o.source_id o = true := by
      simp [keyMatch]
    have hr := findOpp_after_replace s.store o (rejectOpp o now)
      nl.connector_id nl.source_id o h rfl rfl
    rw [if_pos hk] at hr
    refine ⟨rejectOpp o now, ?_, rfl⟩
    unfold applyListing
    rw [h]
    dsimp only
    rw [if_pos h1]
    exact hr
  · unfold applyListing
    rw [h]
    dsimp only
    rw [if_pos h1]

/-- Witness for C6: the Expired sample record rejects the open listing. -/
theorem c6_witness :
    decisionFor exStateExpired.store exListingOpen = Decision.ReopenedRejected ∧
    (∃ o', findOpp (applyListing exStateExpired exListingOpen 6).store
        exListingOpen.connector_id exListingOpen.source_id = some o' ∧
      o'.status = exOppExpired.status) ∧
    (applyListing exStateExpired exListingOpen 6).audit =
      exStateExpired.audit ++ [reopenedEntry exStateExpired.nextEntry exOppExpired 6] :=
  c6_terminal_protected exStateExpired exListingOpen 6 exOppExpired
    (by decide) (by decide) (by decide)

/-- C7: a listing matching an existing record with unchanged fingerprint
and status is a NoOp: only `last_seen_at` is touched, no audit entry is
appended, no counter moves and the version is not incremented. -/
theorem c7_noop_frame (s : PipelineState) (nl : NormalizedListing) (now : Nat)
    (o : Opportunity) (h : findOpp s.store nl.connector_id nl.source_id = some o)
    (hf : o.fingerprint = nl.fingerprint) (hs : o.status = nl.status) :
    decisionFor s.store nl = Decision.NoOp ∧
    (applyListing s nl now).audit = s.audit ∧
    (applyListing s nl now).nextId = s.nextId ∧
    (applyListing s nl now).nextEntry = s.nextEntry ∧
    findOpp (applyListing s nl now).store nl.connector_id nl.source_id =
      some (touchOpp o now) := by
  have h1 : ¬ (o.status.isTerminal = true ∧ nl.status = Status.Open) := by
    intro hcon
    obtain ⟨hterm, hop⟩ := hcon
    rw [hs.trans hop] at hterm
    exact Bool.noConfusion hterm
  have h2 : o.fingerprint = nl.fingerprint ∧ o.status = nl.status := ⟨hf, hs⟩
  have happ : applyListing s nl now = { s with store := setOpp s.store (touchOpp o now) } := by
    unfold applyListing
    rw [h]
    dsimp only
    rw [if_neg h1, if_pos h2]
  have hk : keyMatch o.connector_id o.source_id o = true := by
    simp [keyMatch]
  have hr := findOpp_after_replace s.store o (touchOpp o now)
    nl.connector_id nl.source_id o h rfl rfl
  rw [if_pos hk] at hr
  refine ⟨?_, ?_, ?_, ?_, ?_⟩
  · unfold decisionFor
    rw [h]
    dsimp only
    rw [if_neg h1, if_pos h2]
  · rw [happ]
  · rw [happ]
  · rw [happ]
  · rw [happ]
    exact hr

/-- Witness for C7: reprocessing the unchanged sample listing against the
Open record is a pure `last_seen_at` touch. -/
theorem c7_witness :
    decisionFor exStateOpen.store exListingOpen = Decision.NoOp ∧
    (applyListing exStateOpen exListingOpen 9).audit = exStateOpen.audit ∧
    (applyListing exStateOpen exListingOpen 9).nextId = exStateOpen.nextId ∧
    (applyListing exStateOpen exListingOpen 9).nextEntry = exStateOpen.nextEntry ∧
    findOpp (applyListing exStateOpen exListingOpen 9).store
      exListingOpen.connector_id exListingOpen.source_id = some (touchOpp exOppOpen 9) :=
  c7_noop_frame exStateOpen exListingOpen 9 exOppOpen (by decide) (by decide) (by decide)

/-! ## Script fixtures -/

/-- A fully-populated environment; the password is deliberately short. -/
def exEnvOk : ScriptEnv :=
  { supabase_url := some "https://x.supabase.co", service_role_key := some "srk",
    admin_email := some "admin@example.com",
    admin_uid := some "00000000-0000-0000-0000-000000000000",
    admin_password := some "short" }

/-- The same environment with the service-role key unset. -/
def exEnvNoKey : ScriptEnv :=
  { exEnvOk with service_role_key := none }

/-- Interactive inputs answering the confirmation with " No ", with
mismatched interactive passwords. -/
def exInpNo : ScriptInput :=
  { email_input := "", uid_input := "", password_input := "aaa",
    confirm_input := "bbb", confirmation_input := " No " }

/-- The same inputs answering " YES ". -/
def exInpYes : ScriptInput :=
  { exInpNo with confirmation_input := " YES " }

/-- C8: the password-update call is reached only when the stripped and
lowercased confirmation equals "yes"; for any other confirmation the
script never updates, and whenever it has not error-exited earlier it
exits with code 0. -/
theorem c8_confirmation_gate (env : ScriptEnv) (inp : ScriptInput) :
    (∀ u p, runResetScript env inp = ScriptOutcome.updateCalled u p →
      pyLower (pyStrip inp.confirmation_input) = "yes") ∧
    (pyLower (pyStrip inp.confirmation_input) ≠ "yes" →
      (∀ u p, runResetScript env inp ≠ ScriptOutcome.updateCalled u p) ∧
      (runResetScript env inp ≠ ScriptOutcome.exited false 1 →
        runResetScript env inp ≠ ScriptOutcome.exited true 1 →
        runResetScript env inp = ScriptOutcome.exited true 0)) := by
  unfold runResetScript
  by_cases hg : ¬ (truthy env.supabase_url = true ∧ truthy env.service_role_key = true)
  · rw [if_pos hg]
    exact ⟨fun u p hup => ScriptOutcome.noConfusion hup,
      fun _ => ⟨fun u p hup => ScriptOutcome.noConfusion hup,
        fun hne1 _ => absurd rfl hne1⟩⟩
  · rw [if_neg hg]
    by_cases he : resolvedEmail env inp = ""
    · rw [if_pos he]
      exact ⟨fun u p hup => ScriptOutcome.noConfusion hup,
        fun _ => ⟨fun u p hup => ScriptOutcome.noConfusion hup,
          fun _ hne2 => absurd rfl hne2⟩⟩
    · rw [if_neg he]
      by_cases hid : resolvedUid env inp = ""
      · rw [if_pos hid]
        exact ⟨fun u p hup => ScriptOutcome.noConfusion hup,
          fun _ => ⟨fun u p hup => ScriptOutcome.noConfusion hup,
            fun _ hne2 => absurd rfl hne2⟩⟩
      · rw [if_neg hid]
        cases hpw : resolvedPassword env inp with
        | none =>
          exact ⟨fun u p hup => ScriptOutcome.noConfusion hup,
            fun _ => ⟨fun u p hup => ScriptOutcome.noConfusion hup,
              fun _ hne2 => absurd rfl hne2⟩⟩
        | some pw =>
          dsimp only
          by_cases ha : ¬ (pyContains (resolvedEmail env inp) '@' = true)
          · rw [if_pos ha]
            exact ⟨fun u p hup => ScriptOutcome.noConfusion hup,
              fun _ => ⟨fun u p hup => ScriptOutcome.noConfusion hup,
                fun _ hne2 => absurd rfl hne2⟩⟩
          · rw [if_neg ha]
            by_cases hlen : (resolvedUid env inp).length < 32
            · rw [if_pos hlen]
              exact ⟨fun u p hup => ScriptOutcome.noConfusion hup,
                fun _ => ⟨fun u p hup => ScriptOutcome.noConfusion hup,
                  fun _ hne2 => absurd rfl hne2⟩⟩
            · rw [if_neg hlen]
              by_cases hcon : pyLower (pyStrip inp.confirmation_input) ≠ "yes"
              · rw [if_pos hcon]
                exact ⟨fun u p hup => ScriptOutcome.noConfusion hup,
                  fun _ => ⟨fun u p hup => ScriptOutcome.noConfusion hup,
                    fun _ _ => rfl⟩⟩
              · rw [if_neg hcon]
                exact ⟨fun _ _ _ => not_not.mp hcon,
                  fun hc => absurd (not_not.mp hcon) hc⟩

/-- Witness for C8: with everything else valid, the answer " No " ends
the run with exit code 0 and no update. -/
theorem c8_witness : runResetScript exEnvOk exInpNo = ScriptOutcome.exited true 0 :=
  ((c8_confirmation_gate exEnvOk exInpNo).2 (by decide)).2 (by decide) (by decide)

/-- C9: with SUPABASE_URL or SUPABASE_SERVICE_ROLE_KEY unset or empty the
script exits with code 1 before the client is created, so no external
call is made. -/
theorem c9_missing_env_guard (env : ScriptEnv) (inp : ScriptInput)
    (h : env.supabase_url = none ∨ env.supabase_url = some "" ∨
      env.service_role_key = none ∨ env.service_role_key = some "") :
    runResetScript env inp = ScriptOutcome.exited false 1 := by
  have hg : ¬ (truthy env.supabase_url = true ∧ truthy env.service_role_key = true) := by
    intro hcon
    obtain ⟨h1, h2⟩ := hcon
    rcases h with h | h | h | h
    · rw [h] at h1
      exact Bool.noConfusion h1
    · rw [h] at h1
      simp [truthy] at h1
    · rw [h] at h2
      exact Bool.noConfusion h2
    · rw [h] at h2
      simp [truthy] at h2
  unfold runResetScript
  rw [if_pos hg]

/-- Witness for C9: an unset service-role key exits 1 with no client. -/
theorem c9_witness : runResetScript exEnvNoKey exInpNo = ScriptOutcome.exited false 1 :=
  c9_missing_env_guard exEnvNoKey exInpNo (Or.inr (Or.inr (Or.inl rfl)))

/-- C10: a non-empty ADMIN_PASSWORD environment value is accepted without
the confirm-password match check or the 12-character minimum-length
check: whatever its length, it reaches the password-update call. -/
theorem c10_env_password_skips_checks (env : ScriptEnv) (inp : ScriptInput) (p : String)
    (hp : env.admin_password = some p) (hne : p ≠ "")
    (hu : truthy env.supabase_url = true) (hk : truthy env.service_role_key = true)
    (he : resolvedEmail env inp ≠ "") (ha : pyContains (resolvedEmail env inp) '@' = true)
    (hid : resolvedUid env inp ≠ "") (hlen : ¬ ((resolvedUid env inp).length < 32))
    (hc : pyLower (pyStrip inp.confirmation_input) = "yes") :
    runResetScript env inp = ScriptOutcome.updateCalled (resolvedUid env inp) p := by
  have hpw : resolvedPassword env inp = some p := by
    unfold resolvedPassword
    have htp : truthy env.admin_password = true := by
      rw [hp]
      simp [truthy, hne]
    rw [if_pos htp, hp]
  unfold runResetScript
  rw [if_neg (fun hcon => hcon ⟨hu, hk⟩), if_neg he, if_neg hid, hpw]
  dsimp only
  rw [if_neg (fun hcon => hcon ha), if_neg hlen, if_neg (fun hcon => hcon hc)]

/-- Witness for C10: the 5-character environment password "short" reaches
the update call even though the interactive password inputs mismatch. -/
theorem c10_witness :
    ("short" : String).length < 12 ∧ exInpYes.password_input ≠ exInpYes.confirm_input ∧
    runResetScript exEnvOk exInpYes =
      ScriptOutcome.updateCalled (resolvedUid exEnvOk exInpYes) "short" :=
  ⟨by decide, by decide,
   c10_env_password_skips_checks exEnvOk exInpYes "short" rfl (by decide) (by decide)
     (by decide) (by decide) (by decide) (by decide) (by decide) (by decide)⟩
